import Mathlib

/-!
Verification of the core of a Python Graph-API client (`facebook/__init__.py`)
against its natural-language specification.

The development shallowly embeds the response normalizer (`_handle_response`),
the error object constructor (`GraphAPIError.__init__`), the retry controller
(`_do_request_response_with_retries`), the pagination aggregator (the
`follow_paging` loop of `GraphAPI.request`), the batch capture path of
`GraphAPI.request` and the per-item loop of `GraphAPI.execute`, and the
signed-token verifier (`parse_signed_request`).

Conventions of the embedding:
* JSON values are the inductive `JSON`; Python dictionaries appearing as JSON
  are association lists in insertion order (parsed JSON has distinct keys).
* Python truthiness is `truthy`.
* HTTP bodies are modelled by what they parse to: either `json.loads`
  succeeds with some value, or it fails and we record the raw text together
  with its `parse_qs` decomposition (keys mapped to first values, since
  `parse_qs` never yields empty value lists).
* Exceptions are `Except` / explicit outcome types; a bare Python `except`
  corresponds to a `match` on the embedded outcome.
* Library collaborators that the source calls as black boxes (the HTTP
  transport, `hmac.new(...).digest()`, `json.loads` applied to a decoded
  token payload) are parameters of the embedded functions.
-/

/-- JSON values (the data normalized responses are made of). -/
inductive JSON where
  | null
  | bool (b : Bool)
  | num (n : Int)
  | str (s : String)
  | arr (elems : List JSON)
  | obj (fields : List (String × JSON))

/-- Python truthiness of a JSON value (`bool(x)`). -/
def truthy : JSON → Bool
  | .null => false
  | .bool b => b
  | .num n => n != 0
  | .str s => s != ""
  | .arr xs => !xs.isEmpty
  | .obj fs => !fs.isEmpty

/-- Is the value a Python `dict` (`isinstance(result, dict)`)? -/
def JSON.isObj : JSON → Bool
  | .obj _ => true
  | _ => false

/-- Key lookup in an association list (first match; parsed JSON objects have
distinct keys, so this is Python `dict` lookup). -/
def lookupF (fs : List (String × JSON)) (k : String) : Option JSON :=
  (fs.find? (fun p => p.1 == k)).map Prod.snd

/-- `value[k]` / `value.get(k)` on a JSON value: defined lookup only on
objects.  On non-objects Python raises (`TypeError` / `AttributeError`), which
the call sites of this embedding handle explicitly. -/
def jsonGet (j : JSON) (k : String) : Option JSON :=
  match j with
  | .obj fs => lookupF fs k
  | _ => none

/-- `value.get(k)` with `None` (here `JSON.null`) as the absent default. -/
def jsonGetD (j : JSON) (k : String) : JSON :=
  (jsonGet j k).getD .null

/-- `d[k] = v` on a string-valued dict: replace in place if the key exists
(dict insertion order is preserved), else append. -/
def dictInsert (d : List (String × String)) (k v : String) : List (String × String) :=
  if d.any (fun p => p.1 == k) then
    d.map (fun p => if p.1 == k then (k, v) else p)
  else d ++ [(k, v)]

/-- Lookup in a string-valued dict (`d.get(k)`). -/
def dictGet (d : List (String × String)) (k : String) : Option String :=
  (d.find? (fun p => p.1 == k)).map Prod.snd

/-- `headers.get(k, '')`. -/
def headerGet (headers : List (String × String)) (k : String) : String :=
  (dictGet headers k).getD ""

/-- Python character containment `c in s`. -/
def containsChar (s : String) (c : Char) : Bool :=
  s.toList.any (fun x => x == c)

/-- Python substring test `needle in hay`. -/
def containsSub (hay needle : String) : Bool :=
  (List.range (hay.length + 1)).any
    (fun i => (hay.toList.drop i).take needle.length == needle.toList)

/-- The module constant `ERROR_CODE_TYPE_2 = 2` compared with `==` against the
error's mixed-type classification: only the integer `2` matches. -/
def JSON.isErrorCode2 : JSON → Bool
  | .num n => n == 2
  | _ => false

/-- The exception object `GraphAPIError`: `result` is the constructor's first
argument (a parsed JSON payload, or a plain message string embedded as
`JSON.str`), `type` is the classification and `message` the extracted
message, both of mixed Python type and hence `JSON`-valued. -/
structure GraphAPIError where
  result : JSON
  type : JSON
  message : JSON

/-- Truthiness of the optional `status_code` constructor argument
(`if status_code:`): `None` and `0` are falsy. -/
def statusTruthy : Option Nat → Bool
  | none => false
  | some n => n != 0

/-- `GraphAPIError.__init__(result, status_code)`.  Mirrors the cascade of
`try`/`except` blocks: `type` is the status code when truthy, else
`result["error_code"]` when that lookup succeeds, else `""`; the message is
`result["error_description"]`, else (`result["error"]["message"]` with `type`
overwritten by `result["error"]["code"]`, committed only when both lookups
succeed — a partial assignment of `message` is overwritten by the following
fallbacks), else `result["error_msg"]`, else the raw `result` itself. -/
def mkGraphAPIError (result : JSON) (status_code : Option Nat) : GraphAPIError :=
  let type0 : JSON :=
    if statusTruthy status_code then .num (status_code.getD 0)
    else match jsonGet result "error_code" with
      | some v => v
      | none => .str ""
  match jsonGet result "error_description" with
  | some m => ⟨result, type0, m⟩
  | none =>
    match (jsonGet result "error").bind (fun e => jsonGet e "message"),
          (jsonGet result "error").bind (fun e => jsonGet e "code") with
    | some m, some c => ⟨result, c, m⟩
    | _, _ =>
      match jsonGet result "error_msg" with
      | some m => ⟨result, type0, m⟩
      | none => ⟨result, type0, result⟩

/-- An HTTP response body, modelled by what it parses to: `jsonBody j` when
`json.loads` succeeds with `j`; `rawBody s qs` when it fails, where `s` is the
raw text and `qs` is `parse_qs s` with each key mapped to its first value
(`parse_qs` never produces empty value lists). -/
inductive Body where
  | jsonBody (j : JSON)
  | rawBody (s : String) (qs : List (String × String))

/-- `GraphAPI._handle_response(status_code, headers, body, url)`: classify a
raw response into a success payload or a raised `GraphAPIError`. -/
def handle_response (status_code : Nat) (headers : List (String × String))
    (body : Body) (url : Option String) : Except GraphAPIError JSON :=
  let resultE : Except GraphAPIError JSON :=
    match body with
    | .jsonBody j => .ok j
    | .rawBody s qs =>
      let ct := headerGet headers "content-type"
      if containsSub ct "image/" then
        .ok (.obj [("data", .str s), ("mime-type", .str ct),
                   ("url", match url with | some u => .str u | none => .null)])
      else
        match dictGet qs "access_token" with
        | some tok =>
          (match dictGet qs "expires" with
           | some ex => .ok (.obj [("access_token", .str tok), ("expires", .str ex)])
           | none => .ok (.obj [("access_token", .str tok)]))
        | none =>
          .error (mkGraphAPIError
            (.str "Body was not JSON, image, or querystring") (some status_code))
  match resultE with
  | .error e => .error e
  | .ok result =>
    if status_code ≥ 400 then
      if truthy result then .error (mkGraphAPIError result (some status_code))
      else .error (mkGraphAPIError
        (.str ("Received status_code " ++ toString status_code ++
               " but body type could not be determined")) (some status_code))
    else if truthy result && result.isObj && truthy (jsonGetD result "error") then
      .error (mkGraphAPIError result (some status_code))
    else .ok result

/-- Projection used to state counterexamples: the `result` carried by a raised
error, if the normalizer raised. -/
def errResultOf : Except GraphAPIError JSON → Option JSON
  | .error e => some e.result
  | .ok _ => none

/-! ## Retry controller (`_do_request_response_with_retries`)

The wrapped request closure is abstracted as an oracle `f : Nat → Except
GraphAPIError JSON` giving the outcome of the `i`-th call of
`_do_request_response` (the initial attempt is call `0`).  Beside the
outcome we record the number of calls made and the number of `time.sleep`
invocations, so that the retry policy's side effects are visible. -/

/-- Outcome of the retry wrapper.  `pynone` is the value a Python function
returns when the `for` loop falls off its end without `return`/`raise`
(unreachable under the wrapper's own guard, but part of the semantics). -/
inductive RetryOutcome where
  | ok (v : JSON)
  | err (e : GraphAPIError)
  | pynone

/-- The `for attempt in xrange(1, retries + 1)` loop of
`_do_request_response_with_retries`.  `fuel` is the number of remaining loop
iterations, `attempt` the current attempt number, `calls`/`sleeps` the
counters accumulated so far.  Before each retry, `if self.error_code_2_sleeptime:`
guards a `time.sleep(self.error_code_2_sleeptime)`. -/
def retryForLoop (f : Nat → Except GraphAPIError JSON) (retries sleeptime : Nat) :
    Nat → Nat → Nat → Nat → RetryOutcome × Nat × Nat
  | 0, _, calls, sleeps => (.pynone, calls, sleeps)
  | fuel + 1, attempt, calls, sleeps =>
    let sleeps' := if sleeptime != 0 then sleeps + 1 else sleeps
    match f attempt with
    | .ok v => (.ok v, calls + 1, sleeps')
    | .error e =>
      if !e.type.isErrorCode2 || attempt == retries then (.err e, calls + 1, sleeps')
      else retryForLoop f retries sleeptime fuel (attempt + 1) (calls + 1) sleeps'

/-- `_do_request_response_with_retries()`: try once; on a `GraphAPIError`
whose classification is not the transient sentinel, or when
`self.error_code_2_retries` is falsy (zero), re-raise immediately; otherwise
run the retry loop.  Returns (outcome, number of request calls, number of
sleeps). -/
def do_request_response_with_retries (f : Nat → Except GraphAPIError JSON)
    (retries sleeptime : Nat) : RetryOutcome × Nat × Nat :=
  match f 0 with
  | .ok v => (.ok v, 1, 0)
  | .error e =>
    if !e.type.isErrorCode2 || retries == 0 then (.err e, 1, 0)
    else retryForLoop f retries sleeptime retries 1 1 0

/-! ## Pagination aggregator (the `follow_paging` part of `GraphAPI.request`)

The post-retry fetch of a continuation page
(`_do_paged_request_response_with_retries`, whose retry behaviour is the
subject of the retry-controller theorems) is abstracted as a network oracle
`fetch : String → Except GraphAPIError JSON` from the continuation URL to the
normalized page or the finally-propagated error.  The Python `while True`
loop can run forever on cyclic paging data, so the embedding carries fuel and
reports `outOfFuel` when the bound is hit. -/

/-- `del result['paging']` (a no-op when the key is absent; callers guard with
`'paging' in result`, which agrees with this). -/
def removeKey (j : JSON) (k : String) : JSON :=
  match j with
  | .obj fs => .obj (fs.filter (fun p => p.1 != k))
  | _ => j

/-- `result[k] = v` / `result.update(...)` on a JSON object: replace in place
when the key exists (dict order preserved), else append. -/
def setKey (j : JSON) (k : String) (v : JSON) : JSON :=
  match j with
  | .obj fs =>
    if fs.any (fun p => p.1 == k) then
      .obj (fs.map (fun p => if p.1 == k then (k, v) else p))
    else .obj (fs ++ [(k, v)])
  | _ => j

/-- `result.get('data') or []`, under the source's assumption that a present
`data` field is a list (a truthy non-list `data` would make the later
`data += ...` raise in Python; the theorems below restrict pages accordingly
via `pageWF`). -/
def dataOrNil (j : JSON) : List JSON :=
  match jsonGet j "data" with
  | some (.arr xs) => xs
  | _ => []

/-- `(next_result.get('paging') or {}).get('next')`, continuing only on a
truthy value: `if not next_url: break`.  A truthy non-string `next` or a
truthy non-dict `paging` would raise in Python; `pageWF` excludes them. -/
def nextURL (j : JSON) : Option String :=
  match jsonGet j "paging" with
  | some (.obj fs) =>
    (match lookupF fs "next" with
     | some (.str s) => if s != "" then some s else none
     | _ => none)
  | _ => none

/-- Well-formedness of a page, delimiting the domain on which this embedding
agrees with the Python source: the page is a dict, its `data` field (if any)
is a list or falsy, its `paging` field (if any) is a dict or falsy, and the
`next` entry of that dict (if any) is a string or falsy.  Outside this domain
the Python loop raises `TypeError`/`AttributeError`. -/
def pageWF (p : JSON) : Bool :=
  p.isObj &&
  (match jsonGet p "data" with
   | some (.arr _) => true
   | some v => !truthy v
   | none => true) &&
  (match jsonGet p "paging" with
   | some (.obj fs) =>
     (match lookupF fs "next" with
      | some (.str _) => true
      | some v => !truthy v
      | none => true)
   | some pg => !truthy pg
   | none => true)

/-- Result of the pagination `while True` loop. -/
inductive LoopResult where
  | done (data : List JSON) (pages_seen : Nat)
  | failed (e : GraphAPIError) (data : List JSON) (pages_seen : Nat)
  | outOfFuel

/-- The `while True` pagination loop: read the continuation URL from the most
recently fetched page; stop when there is none; otherwise fetch it (through
the retry policy, abstracted in `fetch`), on failure report the error with the
aggregate and page count collected so far (the source attaches them to the
exception as `e.data` / `e.pages_seen` before re-raising), on success append
the new page's `data` and continue. -/
def pagingLoop (fetch : String → Except GraphAPIError JSON) :
    Nat → JSON → List JSON → Nat → LoopResult
  | 0, nr, data, pages =>
    (match nextURL nr with
     | none => .done data pages
     | some _ => .outOfFuel)
  | fuel + 1, nr, data, pages =>
    match nextURL nr with
    | none => .done data pages
    | some u =>
      match fetch u with
      | .error e => .failed e data pages
      | .ok nr' => pagingLoop fetch fuel nr' (data ++ dataOrNil nr') (pages + 1)

/-- Outcome of `GraphAPI.request` past the first-page fetch when
`follow_paging` is enabled: the aggregated result, or the propagated error
carrying the partial aggregate in its `data` attribute and the count of
successfully fetched pages in its `pages_seen` attribute. -/
inductive PagedOutcome where
  | ok (result : JSON)
  | err (e : GraphAPIError) (data : List JSON) (pages_seen : Nat)
  | outOfFuel

/-- The `follow_paging` aggregation of `GraphAPI.request`, starting from the
already-normalized first page: `data = result.get('data') or []`;
`next_result` starts as a deep copy of the first page (hence still carries its
`paging`); `paging` is deleted from the result to be returned; the loop runs;
on normal exit `data` replaces the result's `data` only when non-empty and
`pages_seen` is always set. -/
def requestFollowPaging (fetch : String → Except GraphAPIError JSON)
    (fuel : Nat) (firstResult : JSON) : PagedOutcome :=
  match pagingLoop fetch fuel firstResult (dataOrNil firstResult) 1 with
  | .done data pages =>
    .ok (setKey
      (if !data.isEmpty then setKey (removeKey firstResult "paging") "data" (.arr data)
       else removeKey firstResult "paging")
      "pages_seen" (.num pages))
  | .failed e data pages => .err e data pages
  | .outOfFuel => .outOfFuel

/-- The successful-chain hypothesis for the pagination theorems:
`fetchChain fetch cur rest` says the page `cur` leads, via successive
continuation URLs each of which `fetch` resolves successfully, through exactly
the pages of `rest`, after which no continuation remains. -/
def fetchChain (fetch : String → Except GraphAPIError JSON) : JSON → List JSON → Prop
  | cur, [] => nextURL cur = none
  | cur, p :: ps => ∃ u, nextURL cur = some u ∧ fetch u = .ok p ∧ fetchChain fetch p ps

/-- The failing-chain hypothesis: `cur` leads through the successful pages of
`rest`, after which the next continuation fetch fails with `e`. -/
def fetchChainFail (fetch : String → Except GraphAPIError JSON)
    (e : GraphAPIError) : JSON → List JSON → Prop
  | cur, [] => ∃ u, nextURL cur = some u ∧ fetch u = .error e
  | cur, p :: ps => ∃ u, nextURL cur = some u ∧ fetch u = .ok p ∧ fetchChainFail fetch e p ps

/-! ## The HTTP calls issued by `request`

Argument and form dicts are string-to-string association lists with dict
update semantics (`dictInsert`). -/

/-- The argument tuple of one `requests.request(...)` invocation; an omitted
keyword argument is `none` (the `requests` default). -/
structure HTTPCall where
  method : String
  url : String
  params : Option (List (String × String))
  body : Option (List (String × String))
  files : Option String

/-- The call issued by `_do_request_response()`:
`requests.request(method, url, timeout=self.timeout, params=args,
data=post_args, files=files)`. -/
def do_request_response_call (method url : String) (args : List (String × String))
    (post_args : Option (List (String × String))) (files : Option String) : HTTPCall :=
  { method := method, url := url, params := some args, body := post_args, files := files }

/-- The call issued by `_do_paged_request_response()`:
`requests.request(method, next_url, timeout=self.timeout)` — it closes over
the session's token and the original call's `args`/`post_args`/`files`, which
are listed here as inputs precisely to record that none of them is used. -/
def do_paged_request_response_call (_access_token : Option String) (method : String)
    (_args : List (String × String)) (_post_args : Option (List (String × String)))
    (_files : Option String) (next_url : String) : HTTPCall :=
  { method := method, url := next_url, params := none, body := none, files := none }

/-! ## Credential attachment and batch capture (`GraphAPI.request`) -/

/-- `args = args or {}` (the first line of `GraphAPI.request`): the value of
the LOCAL `args` after the rebinding — a falsy caller value (`None` or an
empty dict) is replaced by a fresh empty dict.  Whether that local dict is
still the caller's object is tracked separately by `request_batch_capture`. -/
def args_or_fresh (args : Option (List (String × String))) : List (String × String) :=
  match args with
  | some a => a
  | none => []

/-- The credential-merging prologue of `GraphAPI.request`, operating on the
LOCAL dicts (i.e. after the `args = args or {}` rebinding):
`if self.access_token:` (an empty token is falsy) then insert the token into
`post_args` when that dict was supplied (`post_args is not None` — an
identity check, so even an empty `post_args` dict receives the key), else
into the local `args`.  The returned pair is the two local dicts after the
mutation. -/
def attach_access_token (access_token : Option String) (args : List (String × String))
    (post_args : Option (List (String × String))) :
    List (String × String) × Option (List (String × String)) :=
  match access_token with
  | none => (args, post_args)
  | some tok =>
    if tok == "" then (args, post_args)
    else
      match post_args with
      | some pa => (args, some (dictInsert pa "access_token" tok))
      | none => (dictInsert args "access_token" tok, post_args)

/-- `urllib.urlencode` on a string dict, restricted to keys and values that
need no percent-escaping (the escaping itself is irrelevant to the claims,
which concern which dict is encoded where). -/
def urlencode (d : List (String × String)) : String :=
  String.intercalate "&" (d.map (fun p => p.1 ++ "=" ++ p.2))

/-- `method = method or "GET"`: `None` and the empty string are falsy. -/
def effectiveMethod (method : Option String) : String :=
  match method with
  | some m => if m == "" then "GET" else m
  | none => "GET"

/-- A captured batch request descriptor (`{'method', 'body'?, 'relative_url'}`). -/
structure BatchRequestDescriptor where
  method : String
  body : Option String
  relative_url : String

/-- The batch-capture body of `GraphAPI.request` (the `if self._batch_request:`
block): a body is attached only for POST/PUT with truthy `post_args`; `args`,
when non-empty, are appended to the path after `'?' in path and '&' or '?'`. -/
def buildBatchDescriptor (method path : String) (args : List (String × String))
    (post_args : Option (List (String × String))) : BatchRequestDescriptor :=
  let body : Option String :=
    match post_args with
    | some pa =>
      if (method == "POST" || method == "PUT") && !pa.isEmpty then some (urlencode pa)
      else none
    | none => none
  let path' :=
    if !args.isEmpty then
      path ++ (if containsChar path '?' then "&" else "?") ++ urlencode args
    else path
  { method := method, body := body, relative_url := path' }

/-- `GraphAPI.request` up to and including the batch-capture return:
`args = args or {}`, attach the credential, default the method, capture the
descriptor.  Returns the descriptor pushed on `self._requests_stack` together
with the caller's two dict objects as they stand after the call: the caller's
`args` is the mutated local dict only when the caller supplied a truthy
(non-empty) dict — a falsy `args` was rebound to a fresh dict the caller
never sees mutated; `post_args` has no such rebinding, so a supplied
`post_args` is always the caller's object. -/
def request_batch_capture (access_token : Option String) (path : String)
    (args : Option (List (String × String)))
    (post_args : Option (List (String × String)))
    (method : Option String) :
    BatchRequestDescriptor × Option (List (String × String)) ×
      Option (List (String × String)) :=
  let ap := attach_access_token access_token (args_or_fresh args) post_args
  let m := effectiveMethod method
  let callerArgs : Option (List (String × String)) :=
    match args with
    | some a => if a.isEmpty then some a else some ap.1
    | none => none
  (buildBatchDescriptor m path ap.1 ap.2, callerArgs, ap.2)

/-! ## Batch execution (`GraphAPI.execute`) -/

/-- One per-request response object of the combined batch response, with the
fields the source reads: `response['code']`, `response.get('headers', [])` (a
list of name/value pairs), `response['body']`. -/
structure BatchItem where
  code : Nat
  headers : List (String × String)
  body : Body

/-- `headers = {}; for header in ...: headers[header['name']] = header['value']`:
rebuild a header dict from the header list (later entries win). -/
def buildHeaders (hs : List (String × String)) : List (String × String) :=
  hs.foldl (fun d p => dictInsert d p.1 p.2) []

/-- The per-item processing of one batch response object: reconstruct the
header dict and run the item through the normalizer; the surrounding
`try`/`except` turns a raised error into a collected value. -/
def processBatchItem (it : BatchItem) : Except GraphAPIError JSON :=
  handle_response it.code (buildHeaders it.headers) it.body none

/-- The collection loop of `GraphAPI.execute`:
`responses = []; for response in batch_response.json(): ... append result or
the caught exception`. -/
def executeCollect (items : List BatchItem) : List (Except GraphAPIError JSON) :=
  items.foldl (fun rs it => rs ++ [processBatchItem it]) []

/-! ## Token verifier (`parse_signed_request`)

Strings handed to the verifier are modelled as `List Char`; byte strings as
`List Nat` (each < 256).  The two library collaborators the source calls as
black boxes are parameters: `hmacSHA256 key msg` is
`hmac.new(key, msg=msg, digestmod=hashlib.sha256).digest()` and
`jsonLoads bytes` is `json.loads(bytes)` (`none` when it raises
`ValueError`). -/

/-- Python's `str.upper()` on the ASCII strings the verifier handles. -/
def pyUpper (s : String) : String :=
  String.mk (s.toList.map Char.toUpper)

/-- `s.split('.', 1)` followed by unpacking into two names: `none` models the
`ValueError` Python raises when there is no separator (one value cannot be
unpacked into two; that exception is NOT caught by the source's
`except IndexError/TypeError` clauses). -/
def splitDot : List Char → Option (List Char × List Char)
  | [] => none
  | c :: cs =>
    if c == '.' then some ([], cs)
    else (splitDot cs).map (fun p => (c :: p.1, p.2))

/-- The 6-bit value of a base64url character (after `urlsafe_b64decode`'s
translation of `-_` to `+/`, both alphabets decode). -/
def b64Val : Char → Option Nat
  | c =>
    if 'A' ≤ c ∧ c ≤ 'Z' then some (c.toNat - 'A'.toNat)
    else if 'a' ≤ c ∧ c ≤ 'z' then some (c.toNat - 'a'.toNat + 26)
    else if '0' ≤ c ∧ c ≤ '9' then some (c.toNat - '0'.toNat + 52)
    else if c = '-' ∨ c = '+' then some 62
    else if c = '_' ∨ c = '/' then some 63
    else none

/-- Reassemble bytes from 6-bit groups, base64 style: each complete quad gives
three bytes; a trailing pair gives one byte and a trailing triple two, with
the leftover low bits discarded (Python 2's decoder does not validate them).
A trailing singleton cannot occur (callers reject length ≡ 1 mod 4). -/
def b64Bytes : List Nat → List Nat
  | a :: b :: c :: d :: rest =>
    (a * 4 + b / 16) :: ((b % 16) * 16 + c / 4) :: ((c % 4) * 64 + d) :: b64Bytes rest
  | [a, b] => [a * 4 + b / 16]
  | [a, b, c] => [a * 4 + b / 16, (b % 16) * 16 + c / 4]
  | _ => []

/-- `base64.urlsafe_b64decode` as the Python 2 source uses it (the caller has
appended `'=' * ((4 - len % 4) % 4)`): `none` models the `TypeError` Python 2's
`b64decode` raises on a `binascii.Error` (the source catches it and returns
`False`).  The model is exact for inputs made of alphabet characters followed
by padding; Python's leniency towards other characters is outside the domain
the claims exercise. -/
def urlsafe_b64decode (s : List Char) : Option (List Nat) :=
  match (s.takeWhile (fun c => c != '=')).mapM b64Val with
  | none => none
  | some vs => if vs.length % 4 == 1 then none else some (b64Bytes vs)

/-- The padding fix `x + "=" * ((4 - len(x) % 4) % 4)` applied to both
segments before decoding. -/
def padB64 (s : List Char) : List Char :=
  s ++ List.replicate ((4 - s.length % 4) % 4) '='

/-- The possible outcomes of `parse_signed_request`: the decoded payload
mapping, the sentinel `False`, or an uncaught Python exception (recorded with
the kind of exception that escapes). -/
inductive SignedRequestResult where
  | payload (j : JSON)
  | invalid
  | raised (exc : String)

/-- `parse_signed_request(signed_request, app_secret)`.  The `try` block
covers only the split and the two base64 decodes and catches only
`IndexError` and `TypeError`; the unpacking `ValueError` of a separator-less
input and the `ValueError` of `json.loads` on a non-JSON payload escape.
The HMAC is computed over the undecoded base64url payload TEXT (after
`.encode('ascii')`, a no-op on the ASCII token text), keyed by the secret, and
compared by `!=` to the base64url-decoded signature bytes. -/
def parse_signed_request
    (hmacSHA256 : List Char → List Char → List Nat)
    (jsonLoads : List Nat → Option JSON)
    (signed_request : List Char) (app_secret : List Char) : SignedRequestResult :=
  match splitDot signed_request with
  | none => .raised "ValueError: need more than 1 value to unpack"
  | some (encoded_sig, payload) =>
    match urlsafe_b64decode (padB64 encoded_sig) with
    | none => .invalid
    | some sig =>
      match urlsafe_b64decode (padB64 payload) with
      | none => .invalid
      | some dataBytes =>
        match jsonLoads dataBytes with
        | none => .raised "ValueError: No JSON object could be decoded"
        | some data =>
          match data with
          | .obj _ =>
            (match jsonGet data "algorithm" with
             | some (.str a) =>
               if pyUpper a != "HMAC-SHA256" then .invalid
               else
                 if sig != hmacSHA256 app_secret payload then .invalid
                 else .payload data
             | some _ => .raised "AttributeError: object has no attribute upper"
             | none =>
               -- `data.get('algorithm', '').upper()` with the default: `'' != 'HMAC-SHA256'`
               .invalid)
          | _ => .raised "AttributeError: object has no attribute get"


/-! ## Concrete instances used by witnesses and counterexamples -/

/-- A concrete transient error (classification `2`, as extracted from a
nested `error.code`). -/
def errCode2 : GraphAPIError :=
  mkGraphAPIError
    (.obj [("error", .obj [("message", .str "transient"), ("code", .num 2)])]) (some 500)

/-- A concrete fatal error (classification from the status code `400`). -/
def errFatal : GraphAPIError :=
  mkGraphAPIError (.obj [("error_msg", .str "bad request")]) (some 400)
/-- The three concrete pages of the specification's pagination property:
each carries `data = ["x"]`, the first two carry a `paging.next`. -/
def pageX1 : JSON := .obj [("data", .arr [.str "x"]), ("paging", .obj [("next", .str "u2")])]

/-- Second concrete page. -/
def pageX2 : JSON := .obj [("data", .arr [.str "x"]), ("paging", .obj [("next", .str "u3")])]

/-- Third concrete page (no continuation). -/
def pageX3 : JSON := .obj [("data", .arr [.str "x"])]

/-- A network oracle serving the two continuation pages. -/
def fetch3 : String → Except GraphAPIError JSON := fun u =>
  if u == "u2" then .ok pageX2 else if u == "u3" then .ok pageX3 else .error errFatal
/-- A network oracle whose second continuation fetch fails. -/
def fetchFail3 : String → Except GraphAPIError JSON := fun u =>
  if u == "u2" then .ok pageX2 else .error errFatal
/-- First concrete batch response item: a JSON body. -/
def itemOK1 : BatchItem :=
  ⟨200, [("content-type", "application/json")], .jsonBody (.obj [("id", .num 1)])⟩

/-- Second concrete batch response item: a body that is not JSON, not an
image, and not an access-token query string. -/
def itemBad : BatchItem :=
  ⟨200, [("content-type", "text/plain")], .rawBody "garbage" []⟩

/-- Third concrete batch response item: another JSON body. -/
def itemOK2 : BatchItem :=
  ⟨200, [("content-type", "application/json")], .jsonBody (.obj [("id", .num 3)])⟩
/-- A stand-in for the opaque HMAC-SHA256 primitive in concrete runs: the
all-zero 32-byte digest. -/
def hmacZero : List Char → List Char → List Nat := fun _ _ => List.replicate 32 0

/-- The specification's concrete token payload mapping. -/
def payloadJSON42 : JSON :=
  .obj [("algorithm", .str "HMAC-SHA256"), ("user_id", .str "42")]

/-- The ASCII bytes of the payload JSON text
`\x7b"algorithm":"HMAC-SHA256","user_id":"42"\x7d`. -/
def payloadText42 : List Nat :=
  [123, 34, 97, 108, 103, 111, 114, 105, 116, 104, 109, 34, 58, 34, 72, 77,
   65, 67, 45, 83, 72, 65, 50, 53, 54, 34, 44, 34, 117, 115, 101, 114, 95,
   105, 100, 34, 58, 34, 52, 50, 34, 125]

/-- The base64url encoding of that payload text (the token's payload
segment). -/
def payloadSeg42 : List Char :=
  "eyJhbGdvcml0aG0iOiJITUFDLVNIQTI1NiIsInVzZXJfaWQiOiI0MiJ9".toList

/-- `json.loads` restricted to the byte strings this development feeds it:
the concrete payload text parses to the payload mapping. -/
def jsonLoads42 : List Nat → Option JSON := fun bs =>
  if bs == payloadText42 then some payloadJSON42 else none

/-- The base64url text of 32 zero bytes: forty-three `'A'`s. -/
def sigZeros : List Char := List.replicate 43 'A'

/-- The same signature segment with its final character flipped from `'A'`
to `'B'` — a change confined to the two trailing bits the base64 decoder
discards. -/
def sigZerosFlipped : List Char := List.replicate 42 'A' ++ ['B']

/-- The concrete secret used by the witnesses. -/
def secretChars : List Char := "secret".toList

/-! # Theorems -/

/-! ## C1 / C2: the response normalizer -/

/-- When the constructor receives a truthy status code and the result carries
no `error` mapping, the classification is that status code (the only way the
initial `type = status_code` is overwritten requires `result["error"]`). -/
theorem mkGraphAPIError_type_no_error (r : JSON) (st : Nat) (hst : st ≠ 0)
    (hr : jsonGet r "error" = none) :
    (mkGraphAPIError r (some st)).type = .num st := by
  unfold mkGraphAPIError
  simp only [statusTruthy, hr, Option.bind_none, Option.getD_some]
  have hst' : (st != 0) = true := by simpa using hst
  simp only [hst', if_true]
  cases jsonGet r "error_description" <;>
    cases jsonGet r "error_msg" <;> simp

/-- C1 (amended): for every response with status code ≥ 400 the normalizer
raises and never returns.  The raised error is built from the parsed JSON
result when that result is truthy; when the body parses to a falsy JSON value
the error instead carries the generic "body type could not be determined"
message; (an unparseable body has already raised the
"Body was not JSON, image, or querystring" error, also carrying the status
code).  When the result provides no nested `error` mapping, the error's
classification is the status code. -/
theorem C1_status_ge_400_always_raises (status_code : Nat)
    (headers : List (String × String)) (body : Body) (url : Option String)
    (h400 : 400 ≤ status_code) :
    (∃ e, handle_response status_code headers body url = .error e) ∧
    (∀ j, body = .jsonBody j → truthy j = true →
      handle_response status_code headers body url =
        .error (mkGraphAPIError j (some status_code))) ∧
    (∀ j, body = .jsonBody j → truthy j = false →
      handle_response status_code headers body url =
        .error (mkGraphAPIError
          (.str ("Received status_code " ++ toString status_code ++
                 " but body type could not be determined")) (some status_code))) ∧
    (∀ j, body = .jsonBody j → truthy j = true → jsonGet j "error" = none →
      ∃ e, handle_response status_code headers body url = .error e ∧
        e.type = .num status_code) := by
  have hge : status_code ≥ 400 := h400
  refine ⟨?_, ?_, ?_, ?_⟩
  · cases body with
    | jsonBody j =>
      cases htr : truthy j with
      | true =>
        exact ⟨mkGraphAPIError j (some status_code), by simp [handle_response, hge, htr]⟩
      | false =>
        exact ⟨mkGraphAPIError
          (.str ("Received status_code " ++ toString status_code ++
                 " but body type could not be determined")) (some status_code),
          by simp [handle_response, hge, htr]⟩
    | rawBody s qs =>
      by_cases himg : containsSub (headerGet headers "content-type") "image/"
      · exact ⟨mkGraphAPIError
          (.obj [("data", .str s), ("mime-type", .str (headerGet headers "content-type")),
                 ("url", match url with | some u => .str u | none => .null)])
          (some status_code),
          by simp [handle_response, hge, himg, truthy]⟩
      · cases htok : dictGet qs "access_token" with
        | none =>
          exact ⟨mkGraphAPIError (.str "Body was not JSON, image, or querystring")
            (some status_code), by simp [handle_response, himg, htok]⟩
        | some tok =>
          cases hexp : dictGet qs "expires" with
          | none =>
            exact ⟨mkGraphAPIError (.obj [("access_token", .str tok)]) (some status_code),
              by simp [handle_response, hge, himg, htok, hexp, truthy]⟩
          | some ex =>
            exact ⟨mkGraphAPIError
              (.obj [("access_token", .str tok), ("expires", .str ex)]) (some status_code),
              by simp [handle_response, hge, himg, htok, hexp, truthy]⟩
  · rintro j rfl htr
    simp [handle_response, hge, htr]
  · rintro j rfl htr
    simp [handle_response, hge, htr]
  · rintro j rfl htr herr
    refine ⟨mkGraphAPIError j (some status_code), by simp [handle_response, hge, htr], ?_⟩
    exact mkGraphAPIError_type_no_error j status_code (by omega) herr

/-- Witness for C1 at concrete inputs: a 500 response whose body parses as
the (truthy) JSON object with one key raises the error built from that
result. -/
theorem C1_status_ge_400_always_raises_witness :
    handle_response 500 [] (.jsonBody (.obj [("a", .num 1)])) none =
      .error (mkGraphAPIError (.obj [("a", .num 1)]) (some 500)) :=
  (C1_status_ge_400_always_raises 500 [] (.jsonBody (.obj [("a", .num 1)])) none
    (by decide)).2.1 (.obj [("a", .num 1)]) rfl (by decide)

/-- C1 counterexample: the claim as stated says the error is built from the
parsed candidate result whenever one was parsed, but for a body parsing to
the falsy JSON object `\x7b\x7d` with status 400 the source raises the generic
"body type could not be determined" error whose `result` is that message
string, not the parsed empty object. -/
theorem C1_counterexample :
    errResultOf (handle_response 400 [] (.jsonBody (.obj [])) none) =
      some (.str "Received status_code 400 but body type could not be determined") ∧
    (JSON.str "Received status_code 400 but body type could not be determined" ≠
      JSON.obj []) :=
  ⟨rfl, fun h => JSON.noConfusion h⟩

/-- C2 (confirmed): a response with status < 400 whose body parses as JSON
that is not a mapping with a truthy `error` member is returned unchanged. -/
theorem C2_status_lt_400_json_returned_unchanged (status_code : Nat)
    (headers : List (String × String)) (j : JSON) (url : Option String)
    (hstatus : status_code < 400)
    (herr : ¬ (JSON.isObj j = true ∧ truthy (jsonGetD j "error") = true)) :
    handle_response status_code headers (.jsonBody j) url = .ok j := by
  have hb : (truthy j && j.isObj && truthy (jsonGetD j "error")) = false := by
    cases hobj : j.isObj <;> cases htr : truthy j <;>
      cases he : truthy (jsonGetD j "error") <;> simp_all
  have h400 : ¬ (status_code ≥ 400) := by omega
  simp [handle_response, h400, hb]

/-- Witness for C2: a 200 response with body `[1]` (a non-mapping JSON value)
comes back unchanged. -/
theorem C2_status_lt_400_json_returned_unchanged_witness :
    handle_response 200 [] (.jsonBody (.arr [.num 1])) none = .ok (.arr [.num 1]) :=
  C2_status_lt_400_json_returned_unchanged 200 [] (.arr [.num 1]) none
    (by decide) (by simp [JSON.isObj])

/-! ## C3: the retry controller -/

/-- One-step unfolding of the retry loop on positive fuel. -/
theorem retryForLoop_succ_eq (f : Nat → Except GraphAPIError JSON)
    (retries sleeptime fuel attempt calls sleeps : Nat) :
    retryForLoop f retries sleeptime (fuel + 1) attempt calls sleeps =
      (let sleeps' := if sleeptime != 0 then sleeps + 1 else sleeps
       match f attempt with
       | .ok v => (.ok v, calls + 1, sleeps')
       | .error e =>
         if !e.type.isErrorCode2 || attempt == retries then (.err e, calls + 1, sleeps')
         else retryForLoop f retries sleeptime fuel (attempt + 1) (calls + 1) sleeps') := rfl

/-- If every attempt from `attempt` through `retries` fails with a
sentinel-classified error, the retry loop makes exactly the remaining `fuel`
calls, sleeps before each of them when the delay is positive, and propagates
the final attempt's error. -/
theorem retryForLoop_all_fail (f : Nat → Except GraphAPIError JSON)
    (retries sleeptime : Nat) (es : Nat → GraphAPIError)
    (hf : ∀ i, 1 ≤ i → i ≤ retries → f i = .error (es i))
    (ht : ∀ i, 1 ≤ i → i ≤ retries → (es i).type = .num 2) :
    ∀ fuel attempt calls sleeps, 1 ≤ fuel → 1 ≤ attempt →
      attempt + fuel = retries + 1 →
      retryForLoop f retries sleeptime fuel attempt calls sleeps =
        (.err (es retries), calls + fuel,
          if sleeptime != 0 then sleeps + fuel else sleeps) := by
  intro fuel
  induction fuel with
  | zero => intro attempt calls sleeps h0 h1 h2; omega
  | succ n ih =>
    intro attempt calls sleeps h0 h1 h2
    have hle : attempt ≤ retries := by omega
    have hcall : f attempt = .error (es attempt) := hf attempt h1 hle
    have htype : (es attempt).type = .num 2 := ht attempt h1 hle
    rw [retryForLoop_succ_eq]
    cases n with
    | zero =>
      have heq : attempt = retries := by omega
      subst heq
      simp only [hcall, htype, JSON.isErrorCode2, beq_self_eq_true, Bool.or_true, if_true]
    | succ m =>
      have hne : attempt ≠ retries := by omega
      have hbeq : (attempt == retries) = false := by simpa using hne
      simp only [hcall, htype, JSON.isErrorCode2, hbeq]
      rw [if_neg (by simp)]
      rw [ih (attempt + 1) (calls + 1) _ (by omega) (by omega) (by omega)]
      by_cases hs : sleeptime = 0 <;> simp [hs, Prod.mk.injEq] <;> omega

/-- If every attempt strictly before `k` fails with the sentinel and attempt
`k` succeeds, the loop returns that success after exactly the calls up to and
including `k`, with one sleep before each of them when the delay is
positive. -/
theorem retryForLoop_succeeds (f : Nat → Except GraphAPIError JSON)
    (retries sleeptime k : Nat) (v : JSON) (es : Nat → GraphAPIError)
    (hk : k ≤ retries)
    (hf : ∀ i, 1 ≤ i → i < k → f i = .error (es i))
    (ht : ∀ i, 1 ≤ i → i < k → (es i).type = .num 2)
    (hok : f k = .ok v) :
    ∀ fuel attempt calls sleeps, 1 ≤ attempt → attempt + fuel = retries + 1 →
      attempt ≤ k →
      retryForLoop f retries sleeptime fuel attempt calls sleeps =
        (.ok v, calls + (k - attempt + 1),
          if sleeptime != 0 then sleeps + (k - attempt + 1) else sleeps) := by
  intro fuel
  induction fuel with
  | zero => intro attempt calls sleeps h1 h2 h3; omega
  | succ n ih =>
    intro attempt calls sleeps h1 h2 h3
    rw [retryForLoop_succ_eq]
    by_cases hak : attempt = k
    · subst hak
      simp only [hok]
      have hk1 : attempt - attempt + 1 = 1 := by omega
      by_cases hs : sleeptime = 0 <;> simp [hs, hk1]
    · have hlt : attempt < k := by omega
      have hcall : f attempt = .error (es attempt) := hf attempt h1 hlt
      have htype : (es attempt).type = .num 2 := ht attempt h1 hlt
      have hne : attempt ≠ retries := by omega
      have hbeq : (attempt == retries) = false := by simpa using hne
      simp only [hcall, htype, JSON.isErrorCode2, hbeq]
      rw [if_neg (by simp)]
      rw [ih (attempt + 1) (calls + 1) _ (by omega) (by omega) (by omega)]
      by_cases hs : sleeptime = 0 <;> simp [hs, Prod.mk.injEq] <;> omega

/-- C3 (confirmed): the retry controller
(`_do_request_response_with_retries`).  (1) A first-attempt error whose
classification is not the transient sentinel, or any first-attempt error when
the configured retry count is zero, propagates after exactly one call and no
sleep.  (2) When the retry count `N` is positive and every attempt fails with
the sentinel classification, exactly `N` retries follow the initial attempt
(`N + 1` calls), with a sleep of the configured delay before each retry when
that delay is positive, and the final attempt's error propagates.  (3)/(4) A
successful attempt returns immediately: the first `k` attempts failing with
the sentinel followed by a success on attempt `k` gives exactly `k + 1` calls
and `k` conditional sleeps. -/
theorem C3_retry_controller (f : Nat → Except GraphAPIError JSON)
    (retries sleeptime : Nat) :
    (∀ e, f 0 = .error e → (e.type.isErrorCode2 = false ∨ retries = 0) →
      do_request_response_with_retries f retries sleeptime = (.err e, 1, 0)) ∧
    (∀ es : Nat → GraphAPIError, retries ≠ 0 →
      (∀ i, i ≤ retries → f i = .error (es i)) →
      (∀ i, i ≤ retries → (es i).type = .num 2) →
      do_request_response_with_retries f retries sleeptime =
        (.err (es retries), retries + 1,
          if sleeptime != 0 then retries else 0)) ∧
    (∀ v, f 0 = .ok v →
      do_request_response_with_retries f retries sleeptime = (.ok v, 1, 0)) ∧
    (∀ k v (es : Nat → GraphAPIError), k ≤ retries →
      (∀ i, i < k → f i = .error (es i)) →
      (∀ i, i < k → (es i).type = .num 2) →
      f k = .ok v →
      do_request_response_with_retries f retries sleeptime =
        (.ok v, k + 1, if sleeptime != 0 then k else 0)) := by
  refine ⟨?_, ?_, ?_, ?_⟩
  · intro e he hcond
    simp only [do_request_response_with_retries, he]
    rcases hcond with h | h
    · rw [if_pos (by simp [h])]
    · rw [if_pos (by simp [h])]
  · intro es hret hf ht
    have h0 : f 0 = .error (es 0) := hf 0 (by omega)
    have ht0 : (es 0).type = .num 2 := ht 0 (by omega)
    simp only [do_request_response_with_retries, h0]
    rw [if_neg (by simp [ht0, JSON.isErrorCode2, hret])]
    rw [retryForLoop_all_fail f retries sleeptime es
      (fun i h1 h2 => hf i h2) (fun i h1 h2 => ht i h2)
      retries 1 1 0 (by omega) (by omega) (by omega)]
    by_cases hs : sleeptime = 0 <;> simp [hs, Prod.mk.injEq] <;> omega
  · intro v hv
    simp only [do_request_response_with_retries, hv]
  · intro k v es hk hf ht hok
    cases k with
    | zero => simp only [do_request_response_with_retries, hok]; simp
    | succ m =>
      have hret : retries ≠ 0 := by omega
      have h0 : f 0 = .error (es 0) := hf 0 (by omega)
      have ht0 : (es 0).type = .num 2 := ht 0 (by omega)
      simp only [do_request_response_with_retries, h0]
      rw [if_neg (by simp [ht0, JSON.isErrorCode2, hret])]
      rw [retryForLoop_succeeds f retries sleeptime (m + 1) v es hk
        (fun i h1 h2 => hf i h2) (fun i h1 h2 => ht i h2) hok
        retries 1 1 0 (by omega) (by omega) (by omega)]
      have harith : m + 1 - 1 + 1 = m + 1 := by omega
      by_cases hs : sleeptime = 0 <;> simp [hs, harith, Prod.mk.injEq] <;> omega


/-- Witness for C3 at concrete inputs: with retry count 2 and delay 1, a
request that fails every attempt with the transient sentinel makes 3 calls,
sleeps twice, and propagates the final error. -/
theorem C3_retry_controller_witness :
    do_request_response_with_retries (fun _ => .error errCode2) 2 1 =
      (.err errCode2, 3, 2) := by
  have h := (C3_retry_controller (fun _ => .error errCode2) 2 1).2.1
    (fun _ => errCode2) (by decide) (fun i _ => rfl) (fun i _ => rfl)
  simpa using h

/-! ## C4 / C6: the pagination aggregator -/

/-- Along a successful continuation chain the pagination loop terminates
normally, appending each fetched page's `data` and counting each page. -/
theorem pagingLoop_chain_done (fetch : String → Except GraphAPIError JSON) :
    ∀ (rest : List JSON) (cur : JSON) (data : List JSON) (pages fuel : Nat),
      fetchChain fetch cur rest → rest.length ≤ fuel →
      pagingLoop fetch fuel cur data pages =
        .done (data ++ (rest.map dataOrNil).flatten) (pages + rest.length) := by
  intro rest
  induction rest with
  | nil =>
    intro cur data pages fuel hchain _
    cases fuel <;> simp [pagingLoop, fetchChain] at hchain ⊢ <;> simp [hchain]
  | cons p ps ih =>
    intro cur data pages fuel hchain hfuel
    obtain ⟨u, hnext, hfetch, hrest⟩ := hchain
    cases fuel with
    | zero => simp at hfuel
    | succ n =>
      simp only [pagingLoop, hnext, hfetch]
      rw [ih p (data ++ dataOrNil p) (pages + 1) n hrest (by simpa using hfuel)]
      congr 1
      · simp
      · simp only [List.length_cons]; omega

/-- Along a chain whose last continuation fetch fails, the loop reports that
error together with the aggregate and page count accumulated so far. -/
theorem pagingLoop_chain_failed (fetch : String → Except GraphAPIError JSON)
    (e : GraphAPIError) :
    ∀ (rest : List JSON) (cur : JSON) (data : List JSON) (pages fuel : Nat),
      fetchChainFail fetch e cur rest → rest.length < fuel →
      pagingLoop fetch fuel cur data pages =
        .failed e (data ++ (rest.map dataOrNil).flatten) (pages + rest.length) := by
  intro rest
  induction rest with
  | nil =>
    intro cur data pages fuel hchain hfuel
    obtain ⟨u, hnext, hfetch⟩ := hchain
    cases fuel with
    | zero => omega
    | succ n => simp [pagingLoop, hnext, hfetch]
  | cons p ps ih =>
    intro cur data pages fuel hchain hfuel
    obtain ⟨u, hnext, hfetch, hrest⟩ := hchain
    cases fuel with
    | zero => omega
    | succ n =>
      simp only [pagingLoop, hnext, hfetch]
      rw [ih p (data ++ dataOrNil p) (pages + 1) n hrest (by simp at hfuel ⊢; omega)]
      congr 1
      · simp
      · simp only [List.length_cons]; omega

/-- C4 (confirmed): when auto-pagination is enabled and every continuation
fetch succeeds, the request returns the first page's object with `paging`
removed, its `data` replaced by the concatenation of every page's `data`
(each page contributing its `data` or nothing when absent) but only when that
aggregate is non-empty, and a `pages_seen` field always set to the number of
pages fetched — `1 + rest.length`, i.e. `1` when there was no continuation
URL.  (`_hWF` restricts the pages to the shape on which the Python loop does
not raise; it is not needed for the computation.) -/
theorem C4_pagination_aggregation (fetch : String → Except GraphAPIError JSON)
    (first : JSON) (rest : List JSON) (fuel : Nat)
    (_hWF : ∀ p ∈ first :: rest, pageWF p = true)
    (hchain : fetchChain fetch first rest)
    (hfuel : rest.length ≤ fuel) :
    requestFollowPaging fetch fuel first =
      (let agg := dataOrNil first ++ (rest.map dataOrNil).flatten
       let result := removeKey first "paging"
       let result := if !agg.isEmpty then setKey result "data" (.arr agg) else result
       .ok (setKey result "pages_seen" (.num (1 + rest.length)))) := by
  unfold requestFollowPaging
  rw [pagingLoop_chain_done fetch rest first (dataOrNil first) 1 fuel hchain hfuel]
  rfl


/-- Witness for C4 at the specification's concrete instance: 3 pages each
with `data=["x"]` aggregate to `data=["x","x","x"]` and `pages_seen=3`. -/
theorem C4_pagination_aggregation_witness :
    requestFollowPaging fetch3 10 pageX1 =
      .ok (.obj [("data", .arr [.str "x", .str "x", .str "x"]), ("pages_seen", .num 3)]) :=
  (C4_pagination_aggregation fetch3 pageX1 [pageX2, pageX3] 10
    (by decide) ⟨"u2", rfl, rfl, "u3", rfl, rfl, rfl⟩ (by decide)).trans (by rfl)

/-- C6 (confirmed): when a continuation fetch fails (post-retries, abstracted
in `fetch`), the propagated error carries the aggregate collected so far —
including the first page's data — in its `data` attribute and the number of
pages successfully fetched so far in its `pages_seen` attribute. -/
theorem C6_pagination_error_carries_partial_aggregate
    (fetch : String → Except GraphAPIError JSON) (e : GraphAPIError)
    (first : JSON) (rest : List JSON) (fuel : Nat)
    (_hWF : ∀ p ∈ first :: rest, pageWF p = true)
    (hchain : fetchChainFail fetch e first rest)
    (hfuel : rest.length < fuel) :
    requestFollowPaging fetch fuel first =
      .err e (dataOrNil first ++ (rest.map dataOrNil).flatten) (1 + rest.length) := by
  unfold requestFollowPaging
  rw [pagingLoop_chain_failed fetch e rest first (dataOrNil first) 1 fuel hchain hfuel]


/-- Witness for C6 at a concrete input: the first two pages succeed, the
third fetch fails; the error carries `data=["x","x"]` and `pages_seen=2`. -/
theorem C6_pagination_error_carries_partial_aggregate_witness :
    requestFollowPaging fetchFail3 10 pageX1 =
      .err errFatal [.str "x", .str "x"] 2 :=
  (C6_pagination_error_carries_partial_aggregate fetchFail3 errFatal pageX1 [pageX2] 10
    (by decide) ⟨"u2", rfl, rfl, "u3", rfl, rfl⟩ (by decide)).trans (by rfl)

/-! ## C5: the continuation-page HTTP call -/

/-- C5 counterexample: the claim says every pagination follow-up is issued as
a GET regardless of the original request's method, but
`_do_paged_request_response` passes the original `method` through: with an
original POST the follow-up call's method is POST, not GET. -/
theorem C5_counterexample :
    (do_paged_request_response_call (some "tok") "POST" [("a", "b")]
      (some [("c", "d")]) none "https://next.example/page2").method = "POST" ∧
    ("POST" : String) ≠ "GET" :=
  ⟨rfl, by decide⟩

/-- C5 (amended): every pagination follow-up is issued with the SAME HTTP
method as the original request (hence a GET exactly when the original request
was a GET), to the exact continuation URL, with no query parameters, no body,
no file attachments — in particular without the session credential, whatever
the original call's `args`/`post_args`/`files` and the session token were. -/
theorem C5_paged_call_method_and_url (access_token : Option String) (method : String)
    (args : List (String × String)) (post_args : Option (List (String × String)))
    (files : Option String) (next_url : String) :
    do_paged_request_response_call access_token method args post_args files next_url =
      { method := method, url := next_url, params := none, body := none, files := none } :=
  rfl

/-! ## C9: batch execution -/

/-- The collection loop is position-wise: folding append-singleton over the
items equals mapping the per-item processor. -/
theorem executeCollect_eq_map (items : List BatchItem) :
    executeCollect items = items.map processBatchItem := by
  have go : ∀ (l : List BatchItem) (acc : List (Except GraphAPIError JSON)),
      l.foldl (fun rs it => rs ++ [processBatchItem it]) acc =
        acc ++ l.map processBatchItem := by
    intro l
    induction l with
    | nil => intro acc; simp
    | cons x xs ih => intro acc; simp [ih]
  simpa [executeCollect] using go items []


/-- C9 (confirmed): batch execution over `n` per-request response objects
returns exactly `n` collected outcomes, in input order, each the normalized
result or the error raised for that position alone — so one item's failure
cannot affect its siblings.  At the specification's concrete instance, an
unparseable middle item yields an error object at position 1 while positions
0 and 2 hold the normalized sibling results. -/
theorem C9_execute_isolates_per_item_failures :
    (∀ items : List BatchItem, (executeCollect items).length = items.length) ∧
    (∀ (items : List BatchItem) (i : Nat),
      (executeCollect items)[i]? = (items[i]?).map processBatchItem) ∧
    executeCollect [itemOK1, itemBad, itemOK2] =
      [.ok (.obj [("id", .num 1)]),
       .error (mkGraphAPIError
         (.str "Body was not JSON, image, or querystring") (some 200)),
       .ok (.obj [("id", .num 3)])] := by
  refine ⟨?_, ?_, ?_⟩
  · intro items
    rw [executeCollect_eq_map]
    simp
  · intro items i
    rw [executeCollect_eq_map]
    simp [List.getElem?_map]
  · rfl

/-! ## C10: in-place credential attachment and batch capture -/

/-- Replacing an existing key's entries in place leaves the new value as the
first match. -/
theorem dictGet_map_replace (k v : String) :
    ∀ d : List (String × String), (d.any (fun p => p.1 == k)) = true →
      dictGet (d.map (fun p => if p.1 == k then (k, v) else p)) k = some v := by
  intro d
  induction d with
  | nil => intro h; simp at h
  | cons x xs ih =>
    intro h
    by_cases hx : (x.1 == k) = true
    · have hfx : (if x.1 == k then (k, v) else x) = (k, v) := if_pos hx
      simp only [List.map_cons, hfx, dictGet]
      rw [List.find?_cons_of_pos _ (by simp)]
      rfl
    · have hfx : (if x.1 == k then (k, v) else x) = x := if_neg hx
      have hxs : (xs.any (fun p => p.1 == k)) = true := by
        rcases List.any_eq_true.mp h with ⟨p, hp, hpk⟩
        rcases List.mem_cons.mp hp with rfl | hp'
        · exact absurd hpk hx
        · exact List.any_eq_true.mpr ⟨p, hp', hpk⟩
      simp only [List.map_cons, hfx, dictGet]
      rw [List.find?_cons_of_neg _ (by simpa using hx)]
      simpa [dictGet] using ih hxs

/-- Appending a fresh key to a dict without it makes that key retrievable. -/
theorem dictGet_append_no_key (k v : String) :
    ∀ d : List (String × String), (d.any (fun p => p.1 == k)) = false →
      dictGet (d ++ [(k, v)]) k = some v := by
  intro d
  induction d with
  | nil =>
    intro _
    simp only [List.nil_append, dictGet]
    rw [List.find?_cons_of_pos _ (by simp)]
    rfl
  | cons x xs ih =>
    intro h
    have hx : (x.1 == k) = false := by
      cases hxx : (x.1 == k) with
      | false => rfl
      | true => rw [List.any_cons, hxx] at h; simp at h
    have hxs : (xs.any (fun p => p.1 == k)) = false := by
      rw [List.any_cons, hx] at h; simpa using h
    simp only [List.cons_append, dictGet]
    rw [List.find?_cons_of_neg _ (by simp [hx])]
    simpa [dictGet] using ih hxs

/-- Inserting a key into a dict makes it retrievable with exactly the
inserted value. -/
theorem dictInsert_get (d : List (String × String)) (k v : String) :
    dictGet (dictInsert d k v) k = some v := by
  by_cases h : (d.any (fun p => p.1 == k)) = true
  · unfold dictInsert
    rw [if_pos h]
    exact dictGet_map_replace k v d h
  · unfold dictInsert
    rw [if_neg h]
    have h' : (d.any (fun p => p.1 == k)) = false := by
      cases hb : (d.any (fun p => p.1 == k)) with
      | false => rfl
      | true => exact absurd hb h
    exact dictGet_append_no_key k v d h'

/-- A dict after an insertion is never empty. -/
theorem dictInsert_isEmpty (d : List (String × String)) (k v : String) :
    (dictInsert d k v).isEmpty = false := by
  unfold dictInsert
  by_cases h : (d.any (fun p => p.1 == k)) = true
  · rw [if_pos h]
    cases d with
    | nil => simp at h
    | cons x xs => simp
  · rw [if_neg h]
    cases d <;> simp

/-- C10 counterexample: the claim says the caller-supplied argument mapping
is mutated in place and retains the inserted key after the call, but with a
caller-supplied EMPTY `args` dict (and no `post_args`) the source first
rebinds `args = args or {}` to a fresh dict, inserts the token there, and
leaves the caller's dict untouched and without the key — even though the
credential does reach the captured descriptor's query string. -/
theorem C10_counterexample :
    (request_batch_capture (some "T") "me" (some []) none none).2.1 = some [] ∧
    dictGet [] "access_token" = none ∧
    (request_batch_capture (some "T") "me" (some []) none none).1.relative_url =
      "me?access_token=T" :=
  ⟨rfl, rfl, by decide⟩

/-- C10 (amended): with a non-empty session token, before the batch-mode
check: the token is inserted into the caller's `post_args` object whenever
one was supplied — even an empty one, since `post_args is not None` is an
identity check — leaving `args` untouched; otherwise it is inserted into the
LOCAL `args`, which is the caller's object exactly when the caller supplied a
non-empty `args` dict (a falsy `args` is first rebound to a fresh dict by
`args = args or {}`, so an empty caller `args` is not mutated).  The mutated
caller objects retain the key after the call, and in batch mode the
credential is always embedded into the captured descriptor's `relative_url`
query string (GET) or URL-encoded body (POST with truthy `post_args`),
regardless of whether the caller's `args` was shared. -/
theorem C10_request_mutates_caller_dicts (tok : String) (htok : tok ≠ "")
    (path : String) (args pa : List (String × String)) (method : Option String) :
    (request_batch_capture (some tok) path (some args) (some pa) method).2 =
      (some args, some (dictInsert pa "access_token" tok)) ∧
    dictGet (dictInsert pa "access_token" tok) "access_token" = some tok ∧
    (args ≠ [] →
      (request_batch_capture (some tok) path (some args) none method).2 =
        (some (dictInsert args "access_token" tok), none)) ∧
    dictGet (dictInsert args "access_token" tok) "access_token" = some tok ∧
    (request_batch_capture (some tok) path (some []) none method).2 =
      (some [], none) ∧
    (request_batch_capture (some tok) path (some args) none none).1.relative_url =
      path ++ (if containsChar path '?' then "&" else "?") ++
        urlencode (dictInsert args "access_token" tok) ∧
    (request_batch_capture (some tok) path (some args) (some pa) (some "POST")).1.body =
      some (urlencode (dictInsert pa "access_token" tok)) := by
  have htok' : (tok == "") = false := by simpa using htok
  refine ⟨?_, dictInsert_get pa _ tok, ?_, dictInsert_get args _ tok, ?_, ?_, ?_⟩
  · by_cases ha : args.isEmpty = true <;>
      simp [request_batch_capture, attach_access_token, args_or_fresh, htok', ha]
  · intro hne
    have ha : args.isEmpty = false := by
      cases args with
      | nil => exact absurd rfl hne
      | cons x xs => rfl
    simp [request_batch_capture, attach_access_token, args_or_fresh, htok', ha,
      dictInsert_isEmpty]
  · simp [request_batch_capture, attach_access_token, args_or_fresh, htok']
  · simp [request_batch_capture, attach_access_token, args_or_fresh, htok',
      effectiveMethod, buildBatchDescriptor, dictInsert_isEmpty]
  · simp [request_batch_capture, attach_access_token, args_or_fresh, htok',
      effectiveMethod, buildBatchDescriptor, dictInsert_isEmpty]

/-- Witness for C10 at concrete inputs: token `"T"`, path `"me"`,
`args = [("f", "1")]` (non-empty, so shared), `post_args = [("m", "hi")]`:
the caller's args dict retains the key, and the GET descriptor's relative URL
and the POST descriptor's body both embed the credential. -/
theorem C10_request_mutates_caller_dicts_witness :
    (request_batch_capture (some "T") "me" (some [("f", "1")]) none none).2 =
      (some [("f", "1"), ("access_token", "T")], none) ∧
    (request_batch_capture (some "T") "me" (some [("f", "1")]) none none).1.relative_url =
      "me?f=1&access_token=T" ∧
    (request_batch_capture (some "T") "me" (some [("f", "1")])
      (some [("m", "hi")]) (some "POST")).1.body = some "m=hi&access_token=T" := by
  have h := C10_request_mutates_caller_dicts "T" (by decide) "me"
    [("f", "1")] [("m", "hi")] none
  exact ⟨(h.2.2.1 (by decide)).trans (by decide),
    h.2.2.2.2.2.1.trans (by decide), h.2.2.2.2.2.2.trans (by decide)⟩

/-! ## C7 / C8: the token verifier -/

/-- Splitting at the first separator: when the prefix holds no `'.'`, the
split yields exactly the prefix and the remainder (matching
`s.split('.', 1)`). -/
theorem splitDot_append (xs ys : List Char) (h : '.' ∉ xs) :
    splitDot (xs ++ '.' :: ys) = some (xs, ys) := by
  induction xs with
  | nil => simp [splitDot]
  | cons c cs ih =>
    have hc : ¬ (c = '.') := fun hh => h (hh ▸ List.mem_cons_self c cs)
    have hcs : '.' ∉ cs := fun hh => h (List.mem_cons_of_mem c hh)
    simp only [List.cons_append, splitDot]
    rw [if_neg (by simpa using hc)]
    rw [show cs.append ('.' :: ys) = cs ++ '.' :: ys from rfl, ih hcs]
    rfl

/-- A separator-free string does not split. -/
theorem splitDot_none (xs : List Char) (h : '.' ∉ xs) : splitDot xs = none := by
  induction xs with
  | nil => rfl
  | cons c cs ih =>
    have hc : ¬ (c = '.') := fun hh => h (hh ▸ List.mem_cons_self c cs)
    have hcs : '.' ∉ cs := fun hh => h (List.mem_cons_of_mem c hh)
    simp only [splitDot]
    rw [if_neg (by simpa using hc), ih hcs]
    rfl

/-- C7 (amended): the verifier computes the expected signature by applying
the HMAC primitive to the UNDECODED base64url payload segment text, keyed by
the secret, and compares it by exact byte equality against the base64url-
decoded signature segment.  Hence (1) a token whose signature segment decodes
to exactly `hmac(secret, payload_b64)` and whose payload declares
`algorithm = "HMAC-SHA256"` (case-insensitively) verifies and returns the
decoded payload mapping; (2) a signature segment decoding to ANY OTHER byte
string — in particular any single-character flip that changes the decoded
bytes — fails verification; (3) omitting `algorithm` fails; (4) any other
`algorithm` value fails.  (A flip confined to the discarded trailing bits of
the final base64 character leaves the decoded bytes unchanged and is the
subject of the counterexample.) -/
theorem C7_token_verification (hmacSHA256 : List Char → List Char → List Nat)
    (jsonLoads : List Nat → Option JSON) (secret sigB64 payloadB64 : List Char)
    (payloadBytes : List Nat)
    (hnodot : '.' ∉ sigB64)
    (hsig : urlsafe_b64decode (padB64 sigB64) = some (hmacSHA256 secret payloadB64))
    (hpay : urlsafe_b64decode (padB64 payloadB64) = some payloadBytes) :
    (∀ fields a, jsonLoads payloadBytes = some (.obj fields) →
      lookupF fields "algorithm" = some (.str a) → pyUpper a = "HMAC-SHA256" →
      parse_signed_request hmacSHA256 jsonLoads (sigB64 ++ '.' :: payloadB64) secret =
        .payload (.obj fields)) ∧
    (∀ sig' bytes' fields a, '.' ∉ sig' →
      urlsafe_b64decode (padB64 sig') = some bytes' →
      bytes' ≠ hmacSHA256 secret payloadB64 →
      jsonLoads payloadBytes = some (.obj fields) →
      lookupF fields "algorithm" = some (.str a) → pyUpper a = "HMAC-SHA256" →
      parse_signed_request hmacSHA256 jsonLoads (sig' ++ '.' :: payloadB64) secret =
        .invalid) ∧
    (∀ fields, jsonLoads payloadBytes = some (.obj fields) →
      lookupF fields "algorithm" = none →
      parse_signed_request hmacSHA256 jsonLoads (sigB64 ++ '.' :: payloadB64) secret =
        .invalid) ∧
    (∀ fields a, jsonLoads payloadBytes = some (.obj fields) →
      lookupF fields "algorithm" = some (.str a) → pyUpper a ≠ "HMAC-SHA256" →
      parse_signed_request hmacSHA256 jsonLoads (sigB64 ++ '.' :: payloadB64) secret =
        .invalid) := by
  refine ⟨?_, ?_, ?_, ?_⟩
  · intro fields a hjson halg hup
    simp only [parse_signed_request, splitDot_append sigB64 payloadB64 hnodot,
      hsig, hpay, hjson, jsonGet, halg, hup]
    simp
  · intro sig' bytes' fields a hnodot' hsig' hne hjson halg hup
    have hbe : (bytes' == hmacSHA256 secret payloadB64) = false := by
      simpa using hne
    simp only [parse_signed_request, splitDot_append sig' payloadB64 hnodot',
      hsig', hpay, hjson, jsonGet, halg, hup]
    simp [bne, hbe]
  · intro fields hjson halg
    simp only [parse_signed_request, splitDot_append sigB64 payloadB64 hnodot,
      hsig, hpay, hjson, jsonGet, halg]
  · intro fields a hjson halg hup
    have hbe : (pyUpper a == "HMAC-SHA256") = false := by simpa using hup
    simp only [parse_signed_request, splitDot_append sigB64 payloadB64 hnodot,
      hsig, hpay, hjson, jsonGet, halg]
    simp [bne, hbe]


/-- Witness for C7: the concrete token `base64url(digest) '.' payload_b64`
with payload `algorithm="HMAC-SHA256", user_id="42"` verifies and returns the
payload mapping. -/
theorem C7_token_verification_witness :
    parse_signed_request hmacZero jsonLoads42 (sigZeros ++ '.' :: payloadSeg42)
      secretChars = .payload payloadJSON42 :=
  (C7_token_verification hmacZero jsonLoads42 secretChars sigZeros payloadSeg42
      payloadText42 (by decide) (by decide) (by decide)).1
    [("algorithm", .str "HMAC-SHA256"), ("user_id", .str "42")] "HMAC-SHA256"
    rfl rfl (by decide)

/-- C7 counterexample: the claim says flipping one byte of the signature
segment causes verification to fail, but a flip of the final base64 character
that only alters the two discarded trailing bits (`'A'` to `'B'` in position
43) leaves the decoded signature bytes unchanged, and the flipped token still
verifies successfully. -/
theorem C7_counterexample :
    sigZeros ≠ sigZerosFlipped ∧
    urlsafe_b64decode (padB64 sigZeros) = urlsafe_b64decode (padB64 sigZerosFlipped) ∧
    parse_signed_request hmacZero jsonLoads42 (sigZeros ++ '.' :: payloadSeg42)
      secretChars = .payload payloadJSON42 ∧
    parse_signed_request hmacZero jsonLoads42 (sigZerosFlipped ++ '.' :: payloadSeg42)
      secretChars = .payload payloadJSON42 :=
  ⟨by decide, by decide, rfl, rfl⟩

/-- C8 (amended): only base64-level corruption is reported by returning
`False`: when either segment of a split token fails to base64url-decode (a
Python 2 `TypeError`, caught), the verifier returns `False`.  But a token
with no separator raises an uncaught `ValueError` from tuple unpacking, and a
token whose decoded payload is not valid JSON raises an uncaught `ValueError`
from `json.loads` — neither is converted to `False`. -/
theorem C8_malformed_token_behaviour (hmacSHA256 : List Char → List Char → List Nat)
    (jsonLoads : List Nat → Option JSON) (secret token : List Char) :
    ('.' ∉ token →
      parse_signed_request hmacSHA256 jsonLoads token secret =
        .raised "ValueError: need more than 1 value to unpack") ∧
    (∀ a b, splitDot token = some (a, b) →
      urlsafe_b64decode (padB64 a) = none →
      parse_signed_request hmacSHA256 jsonLoads token secret = .invalid) ∧
    (∀ a b sig, splitDot token = some (a, b) →
      urlsafe_b64decode (padB64 a) = some sig →
      urlsafe_b64decode (padB64 b) = none →
      parse_signed_request hmacSHA256 jsonLoads token secret = .invalid) ∧
    (∀ a b sig pb, splitDot token = some (a, b) →
      urlsafe_b64decode (padB64 a) = some sig →
      urlsafe_b64decode (padB64 b) = some pb →
      jsonLoads pb = none →
      parse_signed_request hmacSHA256 jsonLoads token secret =
        .raised "ValueError: No JSON object could be decoded") := by
  refine ⟨?_, ?_, ?_, ?_⟩
  · intro hnd
    simp only [parse_signed_request, splitDot_none token hnd]
  · intro a b hsplit hdec
    simp only [parse_signed_request, hsplit, hdec]
  · intro a b sig hsplit hdeca hdecb
    simp only [parse_signed_request, hsplit, hdeca, hdecb]
  · intro a b sig pb hsplit hdeca hdecb hjson
    simp only [parse_signed_request, hsplit, hdeca, hdecb, hjson]

/-- Witness for C8 at concrete inputs: a separator-free token raises; a token
whose one-character signature segment cannot decode returns `False`; a token
whose decoded payload is not JSON raises. -/
theorem C8_malformed_token_behaviour_witness :
    parse_signed_request hmacZero jsonLoads42 ['x'] secretChars =
      .raised "ValueError: need more than 1 value to unpack" ∧
    parse_signed_request hmacZero jsonLoads42 ['A', '.', 'A'] secretChars = .invalid ∧
    parse_signed_request hmacZero (fun _ => none) ['A', 'A', '.', 'A', 'A'] secretChars =
      .raised "ValueError: No JSON object could be decoded" :=
  ⟨(C8_malformed_token_behaviour hmacZero jsonLoads42 secretChars ['x']).1 (by decide),
   (C8_malformed_token_behaviour hmacZero jsonLoads42 secretChars ['A', '.', 'A']).2.1
     ['A'] ['A'] (by decide) (by decide),
   (C8_malformed_token_behaviour hmacZero (fun _ => none) secretChars
     ['A', 'A', '.', 'A', 'A']).2.2.2 ['A', 'A'] ['A', 'A'] [0] [0]
     (by decide) (by decide) (by decide) rfl⟩

/-- C8 counterexample: the claim says a token with no separator character
yields the simple negative result `False`, but the source's unpacking of
`signed_request.split('.', 1)` raises an uncaught `ValueError` instead. -/
theorem C8_counterexample :
    parse_signed_request hmacZero jsonLoads42 ['x'] secretChars =
      .raised "ValueError: need more than 1 value to unpack" ∧
    SignedRequestResult.raised "ValueError: need more than 1 value to unpack" ≠
      SignedRequestResult.invalid :=
  ⟨rfl, fun h => SignedRequestResult.noConfusion h⟩
